import Mathlib

/-!
Verification development for the go-hw-monitor repository.

The Go sources are shallowly embedded:
* numeric readings (Go `float64`) are modelled as exact rationals `ℚ`;
  the only arithmetic the program performs on them is copying and
  division by the constant 2^30, which is exact;
* Go `uint64` byte counts are modelled as `ℕ`;
* Go `time.Duration` (an `int64` count of nanoseconds) is modelled as `ℤ`;
* a fallible Go call returning `(T, error)` is modelled as `Except String T`;
* the observable behaviour of `fetchSystemStats` (log lines written and the
  single value sent on its output channel) is modelled as a list of events
  produced by a structural recursion that mirrors the `for result := range
  results` loop of `fetcher.go`;
* the scheduler (the `select` dispatch loop of `app.go`/`main.go`) is
  modelled as a recursion over the list of inputs delivered to the loop,
  producing a trace of actions.
-/

/-- Duration of one millisecond in nanoseconds, as in the Go time package. -/
def timeMillisecond : ℤ := 1000000

/-- Duration of one second in nanoseconds, as in the Go time package. -/
def timeSecond : ℤ := 1000000000

/-- Embeds the anonymous struct type of the global `Config` value
(config.go lines 7-28).  Durations are nanosecond counts. -/
structure ConfigType where
  RefreshInterval : ℤ
  TimeFormat : String
  Title : String
  Separator : String
  DecimalPlaces : ℤ
  DiskDrive : String
  CPUSampleDuration : ℤ
  BytesToGB : ℤ
  ScreenThirds : ℤ
  ScreenHalves : ℤ
  MetricCount : ℤ
  ChannelBuffer : ℤ
  ResultsBuffer : ℤ
  deriving DecidableEq

/-- Embeds the initialiser of the global `Config` value (config.go lines 28-53). -/
def Config : ConfigType :=
  { RefreshInterval := 1 * timeSecond
    TimeFormat := "15:04:05"
    Title := "Hardware Monitor - Press Ctrl+C to stop"
    Separator := "========================================="
    DecimalPlaces := 1
    DiskDrive := "C:"
    CPUSampleDuration := 100 * timeMillisecond
    BytesToGB := 1024 * 1024 * 1024
    ScreenThirds := 3
    ScreenHalves := 2
    MetricCount := 3
    ChannelBuffer := 1
    ResultsBuffer := 3 }

/-- Embeds `var config = Config` (main.go line 40). -/
def config : ConfigType := Config

/-- Embeds the struct `MemoryInfo` (monitor.go lines 29-33). -/
structure MemoryInfo where
  UsedPercent : ℚ
  Used : ℕ
  Total : ℕ
  deriving DecidableEq

/-- Embeds the struct `DiskInfo` (monitor.go lines 36-40). -/
structure DiskInfo where
  UsedPercent : ℚ
  Used : ℕ
  Total : ℕ
  deriving DecidableEq

/-- Embeds the struct `SystemStats` (fetcher.go lines 12-20). -/
structure SystemStats where
  CPUUsage : ℚ
  MemoryUsage : ℚ
  MemoryUsed : ℚ
  MemoryTotal : ℚ
  DiskUsage : ℚ
  DiskUsed : ℚ
  DiskTotal : ℚ
  deriving DecidableEq

/-- Zero value of `SystemStats`: the value of `var stats SystemStats`
(fetcher.go line 34). -/
def SystemStats.zero : SystemStats :=
  { CPUUsage := 0, MemoryUsage := 0, MemoryUsed := 0, MemoryTotal := 0
    DiskUsage := 0, DiskUsed := 0, DiskTotal := 0 }

/-- Dynamic type of the `interface{}`-typed field `MetricResult.Value`.
The program only ever stores `nil`, a `float64`, a `*MemoryInfo` or a
`*DiskInfo` there, so those are the cases of the model. -/
inductive MetricValue where
  | nilV : MetricValue
  | floatV (x : ℚ) : MetricValue
  | memV (m : MemoryInfo) : MetricValue
  | diskV (d : DiskInfo) : MetricValue
  deriving DecidableEq

/-- Embeds the struct `MetricResult` (fetcher.go lines 24-28).
`error = none` models a nil error. -/
structure MetricResult where
  type : String
  value : MetricValue
  error : Option String
  deriving DecidableEq

/-- Byte-to-gigabyte conversion applied by the aggregation switch:
`float64(bytes) / float64(config.BytesToGB)` (fetcher.go lines 76-77 and 84-85). -/
def bytesToGBdiv (bytes : ℕ) : ℚ :=
  (bytes : ℚ) / ((config.BytesToGB : ℤ) : ℚ)

/-- Embeds the `switch result.Type` statement of `fetchSystemStats`
(fetcher.go lines 66-87): a successful result is copied/converted into the
matching `SystemStats` fields; a value whose dynamic type does not match the
kind, or an unknown kind string, leaves the struct unchanged. -/
def processValue (stats : SystemStats) (result : MetricResult) : SystemStats :=
  if result.type = "cpu" then
    match result.value with
    | .floatV cpuUsage => { stats with CPUUsage := cpuUsage }
    | _ => stats
  else if result.type = "memory" then
    match result.value with
    | .memV memInfo =>
        { stats with
          MemoryUsage := memInfo.UsedPercent
          MemoryUsed := bytesToGBdiv memInfo.Used
          MemoryTotal := bytesToGBdiv memInfo.Total }
    | _ => stats
  else if result.type = "disk" then
    match result.value with
    | .diskV diskInfo =>
        { stats with
          DiskUsage := diskInfo.UsedPercent
          DiskUsed := bytesToGBdiv diskInfo.Used
          DiskTotal := bytesToGBdiv diskInfo.Total }
    | _ => stats
  else stats

/-- One iteration of the result-collection loop of `fetchSystemStats`
(fetcher.go lines 57-88): a result with a non-nil error is logged and
skipped (`continue`); otherwise the switch updates the stats. -/
def loopStep (stats : SystemStats) (result : MetricResult) : SystemStats :=
  match result.error with
  | some _ => stats
  | none => processValue stats result

/-- The stats accumulated by the collection loop over a list of results in
arrival order. -/
def foldStats (stats : SystemStats) (results : List MetricResult) : SystemStats :=
  results.foldl loopStep stats

/-- Observable events of one `fetchSystemStats` call: log lines written via
`log.Printf` and values sent on the `statsCh` channel. -/
inductive FetchEvent where
  | logError (kind : String) (message : String) : FetchEvent
  | send (stats : SystemStats) : FetchEvent
  deriving DecidableEq

/-- Embeds the body of `fetchSystemStats` after the goroutines are started
(fetcher.go lines 57-91): the loop ranges over the results channel until it
is closed, logging each error (`log.Printf("Error fetching %s metric: %v")`)
and folding successful results into the stats; after the loop the filled
struct is sent on `statsCh` exactly once (line 91). -/
def fetchSystemStatsProc (stats : SystemStats) : List MetricResult → List FetchEvent
  | [] => [FetchEvent.send stats]
  | result :: rest =>
    match result.error with
    | some msg => FetchEvent.logError result.type msg :: fetchSystemStatsProc stats rest
    | none => fetchSystemStatsProc (processValue stats result) rest

/-- Values sent on the `statsCh` channel during one `fetchSystemStats` call. -/
def sentStats (events : List FetchEvent) : List SystemStats :=
  events.filterMap fun e =>
    match e with
    | FetchEvent.send s => some s
    | _ => none

/-- Log lines recorded during one `fetchSystemStats` call, as
(kind, message) pairs. -/
def loggedErrors (events : List FetchEvent) : List (String × String) :=
  events.filterMap fun e =>
    match e with
    | FetchEvent.logError k m => some (k, m)
    | _ => none

/-- Outcome of the three `SystemMonitor` calls made during one collection
round: `monitor.GetCPUUsage`, `monitor.GetMemoryUsage`,
`monitor.GetDiskUsage` (fetcher.go lines 103, 121, 139). -/
structure MonitorModel where
  cpu : Except String ℚ
  memory : Except String MemoryInfo
  disk : Except String DiskInfo

/-- Embeds `fetchCPUMetric` (fetcher.go lines 96-112): on error it sends a
result with nil value and the error, otherwise the clean value. -/
def fetchCPUMetric (m : MonitorModel) : MetricResult :=
  match m.cpu with
  | .error err => { type := "cpu", value := .nilV, error := some err }
  | .ok cpuUsage => { type := "cpu", value := .floatV cpuUsage, error := none }

/-- Embeds `fetchMemoryMetric` (fetcher.go lines 116-130). -/
def fetchMemoryMetric (m : MonitorModel) : MetricResult :=
  match m.memory with
  | .error err => { type := "memory", value := .nilV, error := some err }
  | .ok memoryInfo => { type := "memory", value := .memV memoryInfo, error := none }

/-- Embeds `fetchDiskMetric` (fetcher.go lines 134-148). -/
def fetchDiskMetric (m : MonitorModel) : MetricResult :=
  match m.disk with
  | .error err => { type := "disk", value := .nilV, error := some err }
  | .ok diskInfo => { type := "disk", value := .diskV diskInfo, error := none }

/-- The three metric samples produced by the fan-out goroutines of one
round (fetcher.go lines 44-46), listed in kind order.  Each goroutine sends
exactly one `MetricResult`, and the channel is closed after all three have
completed, so the loop consumes exactly these three samples; an arbitrary
arrival order is a permutation of this list. -/
def roundResults (m : MonitorModel) : List MetricResult :=
  [fetchCPUMetric m, fetchMemoryMetric m, fetchDiskMetric m]

/-- The `SystemStats` value sent at the end of one collection round
(canonical arrival order; permutation invariance is proved separately). -/
def roundSnapshot (m : MonitorModel) : SystemStats :=
  foldStats SystemStats.zero (roundResults m)

/-- Number of failed metric kinds in one round. -/
def isErrB {α : Type} : Except String α → Bool
  | .error _ => true
  | .ok _ => false

/-- Count of the round's samples that carry an error. -/
def failedCount (m : MonitorModel) : ℕ :=
  (if isErrB m.cpu then 1 else 0) + (if isErrB m.memory then 1 else 0) +
    (if isErrB m.disk then 1 else 0)

/-- Embeds `GopsutilMonitor.GetCPUUsage` (monitor.go lines 58-70).  The
argument models the result of the underlying `cpu.Percent(duration, false)`
provider call; a failed call is wrapped, a successful call with an empty
percentage list becomes the error "no CPU usage data returned", and
otherwise the first percentage is returned. -/
def GetCPUUsage (percentResult : Except String (List ℚ)) : Except String ℚ :=
  match percentResult with
  | .error err => .error ("failed to get CPU usage: " ++ err)
  | .ok [] => .error "no CPU usage data returned"
  | .ok (p :: _) => .ok p

/-- Checks that a result value has the dynamic type the aggregation switch
expects for the given kind string (`float64` for "cpu", `*MemoryInfo` for
"memory", `*DiskInfo` for "disk"). -/
def valueMatchesKind (kind : String) (v : MetricValue) : Bool :=
  if kind = "cpu" then
    match v with
    | .floatV _ => true
    | _ => false
  else if kind = "memory" then
    match v with
    | .memV _ => true
    | _ => false
  else if kind = "disk" then
    match v with
    | .diskV _ => true
    | _ => false
  else false

/-- Color constants of the termui library used by the program
(Black 0, Red 1, Green 2, Yellow 3, Blue 4, Magenta 5, Cyan 6, White 7). -/
def ColorRed : ℤ := 1

/-- termui green color constant. -/
def ColorGreen : ℤ := 2

/-- termui yellow color constant. -/
def ColorYellow : ℤ := 3

/-- termui cyan color constant. -/
def ColorCyan : ℤ := 6

/-- termui white color constant. -/
def ColorWhite : ℤ := 7

/-- Model of a termui `widgets.Gauge`: the fields the program reads or
writes (title, rectangle, colors, percent, label). -/
structure Gauge where
  title : String
  rect : ℤ × ℤ × ℤ × ℤ
  barColor : ℤ
  borderFg : ℤ
  titleFg : ℤ
  percent : ℤ
  label : String
  deriving DecidableEq

/-- Model of a termui `widgets.List`: the fields the program reads or
writes (title, rectangle, styles, wrap flag, rows). -/
structure ListWidget where
  title : String
  rect : ℤ × ℤ × ℤ × ℤ
  textFg : ℤ
  wrapText : Bool
  borderFg : ℤ
  titleFg : ℤ
  rows : List String
  deriving DecidableEq

/-- The four widgets manipulated by the dispatch loop; models the
`cpuGauge, memoryGauge, diskGauge, infoList` quadruple created by
`createWidgets` (ui.go lines 106-115) and held in `App` (app.go lines 15-23). -/
structure AppState where
  cpuGauge : Gauge
  memoryGauge : Gauge
  diskGauge : Gauge
  infoList : ListWidget
  deriving DecidableEq

/-- Zero value of a fresh gauge as returned by `widgets.NewGauge()`. -/
def Gauge.new : Gauge :=
  { title := "", rect := (0, 0, 0, 0), barColor := 0, borderFg := 0, titleFg := 0
    percent := 0, label := "" }

/-- Zero value of a fresh list as returned by `widgets.NewList()`. -/
def ListWidget.new : ListWidget :=
  { title := "", rect := (0, 0, 0, 0), textFg := 0, wrapText := false
    borderFg := 0, titleFg := 0, rows := [] }

/-- Embeds `createWidgets` (ui.go lines 106-115): fresh widgets with zero
data (no snapshot has been rendered into them yet). -/
def createWidgets : AppState :=
  { cpuGauge := Gauge.new, memoryGauge := Gauge.new, diskGauge := Gauge.new
    infoList := ListWidget.new }

/-- Embeds `setupUIWithSize` (ui.go lines 25-58): recomputes titles,
rectangles and styles of all four widgets from the given terminal
dimensions.  Go integer division truncates toward zero, hence `Int.tdiv`. -/
def setupUIWithSize (app : AppState) (width height : ℤ) : AppState :=
  { cpuGauge :=
      { app.cpuGauge with
        title := "CPU Usage"
        rect := (0, 0, Int.tdiv width config.ScreenThirds, Int.tdiv height config.ScreenHalves)
        barColor := ColorYellow, borderFg := ColorWhite, titleFg := ColorCyan }
    memoryGauge :=
      { app.memoryGauge with
        title := "Memory Usage"
        rect := (Int.tdiv width config.ScreenThirds, 0,
          Int.tdiv (2 * width) config.ScreenThirds, Int.tdiv height config.ScreenHalves)
        barColor := ColorGreen, borderFg := ColorWhite, titleFg := ColorCyan }
    diskGauge :=
      { app.diskGauge with
        title := "Disk Usage"
        rect := (Int.tdiv (2 * width) config.ScreenThirds, 0, width,
          Int.tdiv height config.ScreenHalves)
        barColor := ColorRed, borderFg := ColorWhite, titleFg := ColorCyan }
    infoList :=
      { app.infoList with
        title := "System Information"
        rect := (0, Int.tdiv height config.ScreenHalves, width, height)
        textFg := ColorWhite, wrapText := false, borderFg := ColorWhite
        titleFg := ColorCyan } }

/-- Go conversion `int(x)` from float64: truncation toward zero. -/
def goInt (x : ℚ) : ℤ :=
  Int.tdiv x.num (x.den : ℤ)

/-- Left-pads a digit string with zeros to the requested width. -/
def padZeros (width : ℕ) (s : String) : String :=
  if s.length ≥ width then s else String.mk (List.replicate (width - s.length) '0') ++ s

/-- Models the Go standard-library call `fmt.Sprintf` with a `%.*f` verb at
the given precision.  The digit-level rounding behaviour of the library
formatter is not relied on by any theorem below; the model only fixes that
the produced text is a pure function of the numeric value. -/
def fmtFixed (places : ℤ) (x : ℚ) : String :=
  let d := places.toNat
  let p : ℤ := (10 : ℤ) ^ d
  let scaled : ℤ := Rat.floor (x * ((p : ℤ) : ℚ) + 1 / 2)
  let whole := Int.tdiv scaled p
  let frac := (scaled - whole * p).natAbs
  if d = 0 then toString whole else toString whole ++ "." ++ padZeros d (toString frac)

/-- The gauge label text `fmt.Sprintf("%.*f%%", config.DecimalPlaces, x)`
(ui.go lines 75, 78, 81). -/
def percentLabel (x : ℚ) : String :=
  fmtFixed config.DecimalPlaces x ++ "%"

/-- The rows written into the info list (ui.go lines 85-97); `nowStr`
models the formatted wall-clock time `time.Now().Format(config.TimeFormat)`. -/
def infoRows (nowStr : String) (stats : SystemStats) : List String :=
  ["Time: " ++ nowStr,
   "",
   "CPU: " ++ fmtFixed config.DecimalPlaces stats.CPUUsage ++ "%",
   "",
   "Memory: " ++ fmtFixed config.DecimalPlaces stats.MemoryUsage ++ "% (" ++
     fmtFixed config.DecimalPlaces stats.MemoryUsed ++ " GB / " ++
     fmtFixed config.DecimalPlaces stats.MemoryTotal ++ " GB)",
   "",
   "Disk (" ++ config.DiskDrive ++ "): " ++ fmtFixed config.DecimalPlaces stats.DiskUsage ++
     "% (" ++ fmtFixed config.DecimalPlaces stats.DiskUsed ++ " GB / " ++
     fmtFixed config.DecimalPlaces stats.DiskTotal ++ " GB)",
   "",
   "Press \x27q\x27 or Ctrl+C to quit"]

/-- Observable actions of the dispatch loop: a collection round starting
(the `go fetchSystemStats` spawn at ui.go line 67), the blocking receive of
the round's stats completing (ui.go line 70), a `ui.Render` call, a layout
recomputation, and the lifecycle steps of `main`. -/
inductive TraceAct where
  | tickerStart : TraceAct
  | roundStart : TraceAct
  | statsReceived (stats : SystemStats) : TraceAct
  | rendered : TraceAct
  | layoutApplied (width height : ℤ) : TraceAct
  | tickerStop : TraceAct
  | uiClosed : TraceAct
  deriving DecidableEq

/-- Per-round environment: the outcome of the three monitor calls of that
round, and the formatted wall-clock time read while building the rows. -/
structure RoundEnv where
  monitor : MonitorModel
  now : String

/-- Embeds `updateDisplay` (ui.go lines 62-102): spawns one collection
round, blocks until the round's `SystemStats` arrives on `statsCh`, writes
the received values into the gauges and the info list, renders, and only
then returns.  The returned action list is the complete trace of the call;
the round it starts is finished (stats received and rendered) before the
trace ends, which is what the blocking receive at ui.go line 70 enforces. -/
def updateDisplayStep (app : AppState) (env : RoundEnv) : AppState × List TraceAct :=
  let stats := roundSnapshot env.monitor
  ({ cpuGauge :=
       { app.cpuGauge with percent := goInt stats.CPUUsage, label := percentLabel stats.CPUUsage }
     memoryGauge :=
       { app.memoryGauge with
         percent := goInt stats.MemoryUsage
         label := percentLabel stats.MemoryUsage }
     diskGauge :=
       { app.diskGauge with
         percent := goInt stats.DiskUsage
         label := percentLabel stats.DiskUsage }
     infoList := { app.infoList with rows := infoRows env.now stats } },
   [TraceAct.roundStart, TraceAct.statsReceived stats, TraceAct.rendered])

/-- Events delivered on the termui event channel, as consumed by the
dispatch loop: a key press (identified by its ID string, e.g. "q" or
"<C-c>") or a resize event carrying its payload. -/
inductive GoUIEvent where
  | key (id : String) : GoUIEvent
  | resizeEvent (width height : ℤ) : GoUIEvent
  deriving DecidableEq

/-- Embeds `App.handleResize` (app.go lines 99-103): recomputes the layout
from the payload dimensions and re-renders the four widgets.  It performs
no collection round. -/
def handleResize (app : AppState) (width height : ℤ) : AppState × List TraceAct :=
  (setupUIWithSize app width height, [TraceAct.layoutApplied width height, TraceAct.rendered])

/-- Embeds `App.handleUIEvent` (app.go lines 88-96): "q" and "<C-c>"
request exit, a resize event is delegated to `handleResize`, anything else
is ignored.  Returns (exit requested, new state, actions). -/
def handleUIEvent (app : AppState) (e : GoUIEvent) : Bool × AppState × List TraceAct :=
  match e with
  | .key id => if id = "q" ∨ id = "<C-c>" then (true, app, []) else (false, app, [])
  | .resizeEvent width height =>
      let r := handleResize app width height
      (false, r.1, r.2)

/-- One input consumed by the `select` statement of the dispatch loop:
either a UI event or a ticker tick. -/
inductive LoopInput where
  | ui (e : GoUIEvent) : LoopInput
  | tick : LoopInput
  deriving DecidableEq

/-- Tests whether an input is a quit request ("q" or Ctrl+C key press). -/
def isQuitInput : LoopInput → Bool
  | .ui (.key id) => id = "q" || id = "<C-c>"
  | _ => false

/-- Embeds the `for { select { ... } }` dispatch loop of `App.run` (app.go
lines 75-84): inputs are handled strictly one at a time; a UI event goes
through `handleUIEvent` and ends the loop when it returns true; a tick runs
`updateDisplay` to completion.  `envs k` is the environment of the k-th
collection round. -/
def runLoop (envs : ℕ → RoundEnv) : List LoopInput → ℕ → AppState → AppState × List TraceAct
  | [], _, app => (app, [])
  | .ui e :: rest, k, app =>
      let r := handleUIEvent app e
      if r.1 then (r.2.1, r.2.2)
      else
        let c := runLoop envs rest k r.2.1
        (c.1, r.2.2 ++ c.2)
  | .tick :: rest, k, app =>
      let u := updateDisplayStep app (envs k)
      let c := runLoop envs rest (k + 1) u.1
      (c.1, u.2 ++ c.2)

/-- Embeds `App.run` (app.go lines 70-85): an initial `updateDisplay`
(round 0), then the dispatch loop. -/
def appRun (envs : ℕ → RoundEnv) (inputs : List LoopInput) (app : AppState) :
    AppState × List TraceAct :=
  let u := updateDisplayStep app (envs 0)
  let c := runLoop envs inputs 1 u.1
  (c.1, u.2 ++ c.2)

/-- Embeds `main` (main.go lines 44-107): widget creation, initial layout
from the terminal dimensions, ticker start, the run loop, and the deferred
cleanup (`ticker.Stop()` then `ui.Close()`, in LIFO defer order) once the
loop returns. -/
def mainProgram (envs : ℕ → RoundEnv) (termWidth termHeight : ℤ)
    (inputs : List LoopInput) : AppState × List TraceAct :=
  let app0 := setupUIWithSize createWidgets termWidth termHeight
  let r := appRun envs inputs app0
  (r.1, TraceAct.tickerStart :: r.2 ++ [TraceAct.tickerStop, TraceAct.uiClosed])

/-- Scans an action trace tracking whether a collection round is in flight
(started but not yet rendered).  Returns false if a new round starts while
one is already in flight, or if a round is still in flight when the trace
ends. -/
def roundsSequentialAux : Bool → List TraceAct → Bool
  | inFlight, [] => !inFlight
  | inFlight, a :: rest =>
      match a with
      | TraceAct.roundStart => !inFlight && roundsSequentialAux true rest
      | TraceAct.rendered => roundsSequentialAux false rest
      | _ => roundsSequentialAux inFlight rest

/-- At most one collection round is ever in flight, and every round is
rendered before the trace ends. -/
def roundsSequential (trace : List TraceAct) : Bool :=
  roundsSequentialAux false trace

/-- Unfolding lemma: the type tag of the CPU sample is always "cpu". -/
theorem fetchCPUMetric_type (m : MonitorModel) : (fetchCPUMetric m).type = "cpu" := by
  cases h : m.cpu <;> simp [fetchCPUMetric, h]

/-- Unfolding lemma: the type tag of the memory sample is always "memory". -/
theorem fetchMemoryMetric_type (m : MonitorModel) : (fetchMemoryMetric m).type = "memory" := by
  cases h : m.memory <;> simp [fetchMemoryMetric, h]

/-- Unfolding lemma: the type tag of the disk sample is always "disk". -/
theorem fetchDiskMetric_type (m : MonitorModel) : (fetchDiskMetric m).type = "disk" := by
  cases h : m.disk <;> simp [fetchDiskMetric, h]

set_option maxHeartbeats 1000000 in
/-- Two loop iterations over samples of different kinds commute: each kind
only writes its own `SystemStats` fields. -/
theorem loopStep_comm (z : SystemStats) (r1 r2 : MetricResult) (h : r1.type ≠ r2.type) :
    loopStep (loopStep z r1) r2 = loopStep (loopStep z r2) r1 := by
  rcases r1 with ⟨t1, v1, e1⟩
  rcases r2 with ⟨t2, v2, e2⟩
  simp only [ne_eq] at h
  cases e1 <;> cases e2 <;> simp only [loopStep]
  cases v1 <;> cases v2 <;>
    simp only [processValue] <;>
    split_ifs <;>
    first
      | rfl
      | (exact absurd (by simp_all) h)

/-- C9: the configuration provided to the core has the documented defaults:
`RefreshInterval` is 1 second, `CPUSampleDuration` (the CPU sampling
sub-interval) is 100 milliseconds, and `DiskDrive` is "C:", the system
volume of the platform the program targets; the package-level `config`
variable is this value. -/
theorem config_defaults :
    Config.RefreshInterval = 1 * timeSecond ∧
    Config.CPUSampleDuration = 100 * timeMillisecond ∧
    Config.DiskDrive = "C:" ∧
    config = Config :=
  ⟨rfl, rfl, rfl, rfl⟩

/-- C4: the byte-to-gigabyte conversion used by the aggregation is exact
under the fixed divisor 1024³ on every multiple of 1024³, both as a bare
conversion and through a full collection round; in particular a memory
sample with `Used = 8·1024³` bytes yields `MemoryUsed = 8`. -/
theorem bytesToGB_exact (k : ℕ) :
    bytesToGBdiv (k * (1024 * 1024 * 1024)) = (k : ℚ) ∧
    (∀ (percent : ℚ) (total : ℕ) (c : Except String ℚ) (d : Except String DiskInfo),
      (roundSnapshot
        { cpu := c
          memory := Except.ok ⟨percent, k * (1024 * 1024 * 1024), total⟩
          disk := d }).MemoryUsed = (k : ℚ)) ∧
    (roundSnapshot
      { cpu := Except.error "e"
        memory := Except.ok ⟨60, 8 * (1024 * 1024 * 1024), 16 * (1024 * 1024 * 1024)⟩
        disk := Except.error "e" }).MemoryUsed = 8 := by
  have hconv : ∀ j : ℕ, bytesToGBdiv (j * (1024 * 1024 * 1024)) = (j : ℚ) := by
    intro j
    simp only [bytesToGBdiv, config, Config]
    push_cast
    field_simp
  refine ⟨hconv k, ?_, ?_⟩
  · intro percent total c d
    cases c <;> cases d <;>
      simpa [roundSnapshot, roundResults, foldStats, loopStep, processValue,
        fetchCPUMetric, fetchMemoryMetric, fetchDiskMetric] using hconv k
  · simpa [roundSnapshot, roundResults, foldStats, loopStep, processValue,
      fetchCPUMetric, fetchMemoryMetric, fetchDiskMetric] using hconv 8

/-- Characterisation of one round's snapshot, field by field: a failed kind
leaves its fields at zero, a succeeded kind contributes exactly its sample's
values (percentages copied, byte counts divided by 1024³). -/
theorem roundSnapshot_spec (m : MonitorModel) :
    ((roundSnapshot m).CPUUsage = match m.cpu with | .ok x => x | .error _ => 0) ∧
    ((roundSnapshot m).MemoryUsage =
      match m.memory with | .ok mi => mi.UsedPercent | .error _ => 0) ∧
    ((roundSnapshot m).MemoryUsed =
      match m.memory with | .ok mi => bytesToGBdiv mi.Used | .error _ => 0) ∧
    ((roundSnapshot m).MemoryTotal =
      match m.memory with | .ok mi => bytesToGBdiv mi.Total | .error _ => 0) ∧
    ((roundSnapshot m).DiskUsage =
      match m.disk with | .ok di => di.UsedPercent | .error _ => 0) ∧
    ((roundSnapshot m).DiskUsed =
      match m.disk with | .ok di => bytesToGBdiv di.Used | .error _ => 0) ∧
    ((roundSnapshot m).DiskTotal =
      match m.disk with | .ok di => bytesToGBdiv di.Total | .error _ => 0) := by
  obtain ⟨c, mm, d⟩ := m
  cases c <;> cases mm <;> cases d <;> exact ⟨rfl, rfl, rfl, rfl, rfl, rfl, rfl⟩

/-- Unfolding lemma for the loop on a result that carries an error. -/
theorem fetchProc_cons_some (st : SystemStats) (r : MetricResult)
    (rest : List MetricResult) (msg : String) (he : r.error = some msg) :
    fetchSystemStatsProc st (r :: rest) =
      FetchEvent.logError r.type msg :: fetchSystemStatsProc st rest := by
  simp [fetchSystemStatsProc, he]

/-- Unfolding lemma for the loop on a result without an error. -/
theorem fetchProc_cons_none (st : SystemStats) (r : MetricResult)
    (rest : List MetricResult) (he : r.error = none) :
    fetchSystemStatsProc st (r :: rest) = fetchSystemStatsProc (processValue st r) rest := by
  simp [fetchSystemStatsProc, he]

/-- A log event contributes nothing to the sent-value projection. -/
theorem sentStats_cons_log (k msg : String) (evs : List FetchEvent) :
    sentStats (FetchEvent.logError k msg :: evs) = sentStats evs := by
  simp [sentStats]

/-- The collection loop sends exactly the folded stats, once, whatever the
result list is. -/
theorem sentStats_proc (l : List MetricResult) (st : SystemStats) :
    sentStats (fetchSystemStatsProc st l) = [foldStats st l] := by
  induction l generalizing st with
  | nil => rfl
  | cons r rest ih =>
      cases he : r.error with
      | none =>
          rw [fetchProc_cons_none st r rest he, ih]
          have hstep : loopStep st r = processValue st r := by simp [loopStep, he]
          simp [foldStats, hstep]
      | some msg =>
          rw [fetchProc_cons_some st r rest msg he, sentStats_cons_log, ih]
          have hstep : loopStep st r = st := by simp [loopStep, he]
          simp [foldStats, hstep]

/-- The log lines of one loop run are exactly the (kind, message) pairs of
the results that carried errors, in arrival order. -/
theorem loggedErrors_proc (l : List MetricResult) (st : SystemStats) :
    loggedErrors (fetchSystemStatsProc st l) =
      l.filterMap fun r => r.error.map fun msg => (r.type, msg) := by
  induction l generalizing st with
  | nil => rfl
  | cons r rest ih =>
      cases he : r.error with
      | none =>
          rw [fetchProc_cons_none st r rest he, ih]
          simp [he]
      | some msg =>
          rw [fetchProc_cons_some st r rest msg he]
          simp only [loggedErrors, List.filterMap_cons, he, Option.map_some]
          rw [← loggedErrors, ih]
          rfl

/-- The folded snapshot is invariant under the arrival order of the three
samples of a round: each sample writes only the fields of its own kind. -/
theorem foldStats_perm (m : MonitorModel) (l : List MetricResult)
    (hp : l.Perm (roundResults m)) :
    foldStats SystemStats.zero l = roundSnapshot m := by
  have comm : ∀ x ∈ roundResults m, ∀ y ∈ roundResults m, ∀ z,
      loopStep (loopStep z x) y = loopStep (loopStep z y) x := by
    intro x hx y hy z
    simp only [roundResults, List.mem_cons, List.not_mem_nil, or_false] at hx hy
    rcases hx with hx | hx | hx <;> rcases hy with hy | hy | hy <;> subst hx <;> subst hy <;>
      first
        | rfl
        | exact loopStep_comm z _ _ (by
            simp [fetchCPUMetric_type, fetchMemoryMetric_type, fetchDiskMetric_type])
  show List.foldl loopStep SystemStats.zero l =
    List.foldl loopStep SystemStats.zero (roundResults m)
  exact (List.Perm.foldl_eq' hp.symm comm SystemStats.zero).symm

/-- C1: for every combination of success and failure across the three
metric kinds, `fetchSystemStats` produces a `SystemStats` whose fields for
each failed kind are exactly zero and whose fields for each succeeded kind
exactly equal the input sample's values: percentages copied unchanged, byte
counts divided by 1024³. -/
theorem fetch_fieldwise (m : MonitorModel) :
    ((roundSnapshot m).CPUUsage = match m.cpu with | .ok x => x | .error _ => 0) ∧
    ((roundSnapshot m).MemoryUsage =
      match m.memory with | .ok mi => mi.UsedPercent | .error _ => 0) ∧
    ((roundSnapshot m).MemoryUsed =
      match m.memory with | .ok mi => bytesToGBdiv mi.Used | .error _ => 0) ∧
    ((roundSnapshot m).MemoryTotal =
      match m.memory with | .ok mi => bytesToGBdiv mi.Total | .error _ => 0) ∧
    ((roundSnapshot m).DiskUsage =
      match m.disk with | .ok di => di.UsedPercent | .error _ => 0) ∧
    ((roundSnapshot m).DiskUsed =
      match m.disk with | .ok di => bytesToGBdiv di.Used | .error _ => 0) ∧
    ((roundSnapshot m).DiskTotal =
      match m.disk with | .ok di => bytesToGBdiv di.Total | .error _ => 0) :=
  roundSnapshot_spec m

/-- C2: for every assignment of values or errors to the three samples and
every arrival order, the aggregation completes and sends exactly one
`SystemStats`; each failed sample is logged (one log line per failure) and
the round is never short-circuited: every succeeded kind's fields are still
populated from its sample. -/
theorem aggregation_total (m : MonitorModel) (l : List MetricResult)
    (hp : l.Perm (roundResults m)) :
    sentStats (fetchSystemStatsProc SystemStats.zero l) = [roundSnapshot m] ∧
    (sentStats (fetchSystemStatsProc SystemStats.zero l)).length = 1 ∧
    (loggedErrors (fetchSystemStatsProc SystemStats.zero l)).length = failedCount m ∧
    (∀ x, m.cpu = Except.ok x → (foldStats SystemStats.zero l).CPUUsage = x) ∧
    (∀ mi, m.memory = Except.ok mi →
      (foldStats SystemStats.zero l).MemoryUsage = mi.UsedPercent ∧
      (foldStats SystemStats.zero l).MemoryUsed = bytesToGBdiv mi.Used) ∧
    (∀ di, m.disk = Except.ok di →
      (foldStats SystemStats.zero l).DiskUsage = di.UsedPercent ∧
      (foldStats SystemStats.zero l).DiskUsed = bytesToGBdiv di.Used) := by
  have hfold := foldStats_perm m l hp
  have hspec := roundSnapshot_spec m
  refine ⟨?_, ?_, ?_, ?_, ?_, ?_⟩
  · rw [sentStats_proc, hfold]
  · rw [sentStats_proc]
    rfl
  · rw [loggedErrors_proc]
    rw [List.Perm.length_eq (List.Perm.filterMap _ hp)]
    obtain ⟨c, mm, d⟩ := m
    cases c <;> cases mm <;> cases d <;> rfl
  · intro x hx
    rw [hfold, hspec.1, hx]
  · intro mi hmi
    rw [hfold, hspec.2.1, hspec.2.2.1, hmi]
    exact ⟨rfl, rfl⟩
  · intro di hdi
    rw [hfold, hspec.2.2.2.2.1, hspec.2.2.2.2.2.1, hdi]
    exact ⟨rfl, rfl⟩

/-- Concrete monitor outcome used to witness C2: memory and disk succeed,
CPU fails. -/
def mw2 : MonitorModel :=
  { cpu := Except.error "cpu fail"
    memory := Except.ok ⟨60, 8589934592, 17179869184⟩
    disk := Except.ok ⟨45, 483183820800, 1073741824000⟩ }

/-- Arrival order used to witness C2: memory first, then CPU, then disk. -/
def lw2 : List MetricResult :=
  [fetchMemoryMetric mw2, fetchCPUMetric mw2, fetchDiskMetric mw2]

/-- Witness for C2 at a concrete round with one failure and a non-canonical
arrival order. -/
theorem aggregation_total_witness :
    sentStats (fetchSystemStatsProc SystemStats.zero lw2) = [roundSnapshot mw2] ∧
    (sentStats (fetchSystemStatsProc SystemStats.zero lw2)).length = 1 ∧
    (loggedErrors (fetchSystemStatsProc SystemStats.zero lw2)).length = failedCount mw2 ∧
    (∀ x, mw2.cpu = Except.ok x → (foldStats SystemStats.zero lw2).CPUUsage = x) ∧
    (∀ mi, mw2.memory = Except.ok mi →
      (foldStats SystemStats.zero lw2).MemoryUsage = mi.UsedPercent ∧
      (foldStats SystemStats.zero lw2).MemoryUsed = bytesToGBdiv mi.Used) ∧
    (∀ di, mw2.disk = Except.ok di →
      (foldStats SystemStats.zero lw2).DiskUsage = di.UsedPercent ∧
      (foldStats SystemStats.zero lw2).DiskUsed = bytesToGBdiv di.Used) :=
  aggregation_total mw2 lw2
    (List.Perm.swap (fetchCPUMetric mw2) (fetchMemoryMetric mw2) [fetchDiskMetric mw2])

/-- C3: the aggregation consumes exactly 3 samples and sends exactly 1
`SystemStats`, and the resulting snapshot is the same for every permutation
of the arrival order of the three samples. -/
theorem aggregation_perm_invariant (m : MonitorModel) (l : List MetricResult)
    (hp : l.Perm (roundResults m)) :
    (roundResults m).length = 3 ∧ l.length = 3 ∧
    (sentStats (fetchSystemStatsProc SystemStats.zero l)).length = 1 ∧
    foldStats SystemStats.zero l = roundSnapshot m := by
  refine ⟨rfl, ?_, ?_, foldStats_perm m l hp⟩
  · rw [List.Perm.length_eq hp]
    rfl
  · rw [sentStats_proc]
    rfl

/-- Concrete monitor outcome used to witness C3: all three kinds succeed. -/
def mw3 : MonitorModel :=
  { cpu := Except.ok 75
    memory := Except.ok ⟨60, 8589934592, 17179869184⟩
    disk := Except.ok ⟨45, 483183820800, 1073741824000⟩ }

/-- Arrival order used to witness C3: CPU first, then disk, then memory. -/
def lw3 : List MetricResult :=
  [fetchCPUMetric mw3, fetchDiskMetric mw3, fetchMemoryMetric mw3]

/-- Witness for C3 at a concrete round with a non-canonical arrival order. -/
theorem aggregation_perm_invariant_witness :
    (roundResults mw3).length = 3 ∧ lw3.length = 3 ∧
    (sentStats (fetchSystemStatsProc SystemStats.zero lw3)).length = 1 ∧
    foldStats SystemStats.zero lw3 = roundSnapshot mw3 :=
  aggregation_perm_invariant mw3 lw3
    (List.Perm.cons (fetchCPUMetric mw3)
      (List.Perm.swap (fetchMemoryMetric mw3) (fetchDiskMetric mw3) []))

/-- C5: `GetCPUUsage` returns an error exactly when the underlying provider
errs or returns an empty percentage list; an empty list yields the error
"no CPU usage data returned", and a round whose CPU sample carries this
error logs it and leaves the CPU field at zero. -/
theorem cpu_no_data_is_error :
    (∀ r : Except String (List ℚ),
      (∃ e, GetCPUUsage r = Except.error e) ↔
        ((∃ e, r = Except.error e) ∨ r = Except.ok [])) ∧
    GetCPUUsage (Except.ok []) = Except.error "no CPU usage data returned" ∧
    (∀ (e : String) (mm : Except String MemoryInfo) (dd : Except String DiskInfo),
      (roundSnapshot { cpu := Except.error e, memory := mm, disk := dd }).CPUUsage = 0 ∧
      ("cpu", e) ∈
        loggedErrors (fetchSystemStatsProc SystemStats.zero
          (roundResults { cpu := Except.error e, memory := mm, disk := dd }))) ∧
    (∀ (mm : Except String MemoryInfo) (dd : Except String DiskInfo),
      (roundSnapshot { cpu := GetCPUUsage (Except.ok []), memory := mm, disk := dd }).CPUUsage
        = 0 ∧
      ("cpu", "no CPU usage data returned") ∈
        loggedErrors (fetchSystemStatsProc SystemStats.zero
          (roundResults { cpu := GetCPUUsage (Except.ok []), memory := mm, disk := dd }))) := by
  have hround : ∀ (e : String) (mm : Except String MemoryInfo) (dd : Except String DiskInfo),
      (roundSnapshot { cpu := Except.error e, memory := mm, disk := dd }).CPUUsage = 0 ∧
      ("cpu", e) ∈
        loggedErrors (fetchSystemStatsProc SystemStats.zero
          (roundResults { cpu := Except.error e, memory := mm, disk := dd })) := by
    intro e mm dd
    refine ⟨?_, ?_⟩
    · cases mm <;> cases dd <;> rfl
    · rw [loggedErrors_proc]
      cases mm <;> cases dd <;> simp [roundResults, fetchCPUMetric, fetchMemoryMetric,
        fetchDiskMetric]
  refine ⟨?_, rfl, hround, fun mm dd => hround "no CPU usage data returned" mm dd⟩
  · intro r
    rcases r with e | ps
    · simp [GetCPUUsage]
    · cases ps <;> simp [GetCPUUsage]

/-- C10: a sample that carries no error but whose value does not have the
dynamic type expected for its kind is silently ignored: the stats pass
through unchanged and, unlike the error case, no log line is recorded (the
event trace is exactly that of the remaining samples). -/
theorem mismatched_value_ignored (stats : SystemStats) (r : MetricResult)
    (rest : List MetricResult) (herr : r.error = none)
    (hkind : valueMatchesKind r.type r.value = false) :
    processValue stats r = stats ∧
    fetchSystemStatsProc stats (r :: rest) = fetchSystemStatsProc stats rest := by
  have hp : processValue stats r = stats := by
    rcases r with ⟨t, v, e⟩
    simp only [valueMatchesKind] at hkind
    cases v <;> simp only [processValue] <;> split_ifs at hkind ⊢ <;> simp_all
  refine ⟨hp, ?_⟩
  rw [fetchProc_cons_none stats r rest herr, hp]

/-- Witness for C10: a "cpu" sample carrying a `*MemoryInfo` value and no
error is dropped without a log line. -/
theorem mismatched_value_ignored_witness :
    processValue SystemStats.zero
      { type := "cpu", value := MetricValue.memV ⟨0, 0, 0⟩, error := none } =
      SystemStats.zero ∧
    fetchSystemStatsProc SystemStats.zero
      [{ type := "cpu", value := MetricValue.memV ⟨0, 0, 0⟩, error := none }] =
      fetchSystemStatsProc SystemStats.zero [] :=
  mismatched_value_ignored SystemStats.zero
    { type := "cpu", value := MetricValue.memV ⟨0, 0, 0⟩, error := none } [] rfl (by decide)

/-- A complete collection-round block (start, receive, render) returns the
scanner to the closed state. -/
theorem aux_round_block (s : SystemStats) (t : List TraceAct) :
    roundsSequentialAux false
      (TraceAct.roundStart :: TraceAct.statsReceived s :: TraceAct.rendered :: t) =
      roundsSequentialAux false t := rfl

/-- A resize block (layout, render) leaves the scanner in the closed state. -/
theorem aux_layout_block (w h : ℤ) (t : List TraceAct) :
    roundsSequentialAux false
      (TraceAct.layoutApplied w h :: TraceAct.rendered :: t) =
      roundsSequentialAux false t := rfl

/-- The dispatch loop's trace keeps rounds sequential: appending any suffix,
the scan of the loop trace reduces to the scan of the suffix. -/
theorem runLoop_aux (inputs : List LoopInput) (envs : ℕ → RoundEnv) (k : ℕ)
    (app : AppState) (t : List TraceAct) :
    roundsSequentialAux false ((runLoop envs inputs k app).2 ++ t) =
      roundsSequentialAux false t := by
  induction inputs generalizing k app with
  | nil => rfl
  | cons i rest ih =>
      cases i with
      | tick =>
          simp only [runLoop, updateDisplayStep, List.cons_append, List.nil_append,
            List.append_assoc]
          rw [aux_round_block]
          exact ih _ _
      | ui e =>
          cases e with
          | key id =>
              by_cases hq : id = "q" ∨ id = "<C-c>"
              · simp only [runLoop, handleUIEvent, if_pos hq, if_true, List.nil_append]
              · simp only [runLoop, handleUIEvent, if_neg hq, if_false, List.nil_append]
                exact ih _ _
          | resizeEvent w h =>
              simp only [runLoop, handleUIEvent, handleResize, Bool.false_eq_true,
                if_false, List.cons_append, List.nil_append, List.append_assoc]
              rw [aux_layout_block]
              exact ih _ _

/-- The whole `App.run` trace (initial round, then the loop) keeps rounds
sequential, for any appended suffix. -/
theorem appRun_aux (envs : ℕ → RoundEnv) (inputs : List LoopInput) (app : AppState)
    (t : List TraceAct) :
    roundsSequentialAux false ((appRun envs inputs app).2 ++ t) =
      roundsSequentialAux false t := by
  simp only [appRun, updateDisplayStep, List.cons_append, List.nil_append,
    List.append_assoc]
  rw [aux_round_block]
  exact runLoop_aux inputs envs 1 _ t

/-- C6: at most one collection round is in flight at a time.  In every
trace of the dispatch loop (and of the whole program), a new round never
starts while a previous round is unfinished, and every started round
receives its stats and is rendered before the trace ends: collection and
render are synchronous with respect to the loop, which handles one input at
a time. -/
theorem single_round_in_flight (envs : ℕ → RoundEnv) (inputs : List LoopInput)
    (app : AppState) (termWidth termHeight : ℤ) :
    roundsSequential (appRun envs inputs app).2 = true ∧
    roundsSequential (mainProgram envs termWidth termHeight inputs).2 = true := by
  constructor
  · show roundsSequentialAux false _ = true
    rw [← List.append_nil (appRun envs inputs app).2, appRun_aux]
    rfl
  · have h := appRun_aux envs inputs (setupUIWithSize createWidgets termWidth termHeight)
      [TraceAct.tickerStop, TraceAct.uiClosed]
    exact h.trans rfl

/-- Once a quit event is reached, the dispatch loop's result does not
depend on anything queued after it: the loop returns at the quit event. -/
theorem runLoop_quit_ignores_rest (pre : List LoopInput)
    (hpre : pre.all (fun i => !(isQuitInput i)) = true)
    (id : String) (hid : id = "q" ∨ id = "<C-c>")
    (post : List LoopInput) (envs : ℕ → RoundEnv) (k : ℕ) (app : AppState) :
    runLoop envs (pre ++ LoopInput.ui (GoUIEvent.key id) :: post) k app =
      runLoop envs (pre ++ [LoopInput.ui (GoUIEvent.key id)]) k app := by
  induction pre generalizing k app with
  | nil =>
      rcases hid with h | h <;> subst h <;>
        simp [runLoop, handleUIEvent]
  | cons i pre' ih =>
      rw [List.all_cons, Bool.and_eq_true] at hpre
      obtain ⟨hi, hpre'⟩ := hpre
      cases i with
      | tick =>
          simp only [List.cons_append, runLoop, List.append_eq]
          rw [ih hpre']
      | ui e =>
          cases e with
          | key s =>
              have hq : ¬(s = "q" ∨ s = "<C-c>") := by
                simp only [isQuitInput, Bool.not_eq_eq_eq_not, Bool.not_true] at hi
                intro hc
                rcases hc with hc | hc <;> subst hc <;> simp at hi
              simp only [List.cons_append, runLoop, handleUIEvent, if_neg hq,
                List.append_eq, Bool.false_eq_true, if_false]
              rw [ih hpre']
          | resizeEvent w h =>
              simp only [List.cons_append, runLoop, handleUIEvent, handleResize,
                List.append_eq, Bool.false_eq_true, if_false]
              rw [ih hpre']

/-- C7: a quit event ("q" or Ctrl+C) makes the dispatch loop exit before
processing any further inputs: the program behaves identically whether or
not more inputs (in particular ticks) are queued after the quit event, so
no subsequent tick triggers a collection round; after the loop returns, the
deferred cleanup stops the timer and closes the UI. -/
theorem quit_exits_loop (envs : ℕ → RoundEnv) (termWidth termHeight : ℤ)
    (pre post : List LoopInput) (id : String)
    (hpre : pre.all (fun i => !(isQuitInput i)) = true)
    (hid : id = "q" ∨ id = "<C-c>") :
    mainProgram envs termWidth termHeight (pre ++ LoopInput.ui (GoUIEvent.key id) :: post) =
      mainProgram envs termWidth termHeight (pre ++ [LoopInput.ui (GoUIEvent.key id)]) ∧
    (∃ t, (mainProgram envs termWidth termHeight
        (pre ++ LoopInput.ui (GoUIEvent.key id) :: post)).2 =
      t ++ [TraceAct.tickerStop, TraceAct.uiClosed]) := by
  constructor
  · simp only [mainProgram, appRun]
    rw [runLoop_quit_ignores_rest pre hpre id hid post]
  · exact ⟨_, rfl⟩

/-- Round environments used to witness C7. -/
def envs7 : ℕ → RoundEnv :=
  fun _ => { monitor := { cpu := Except.ok 50, memory := Except.error "mem fail",
                          disk := Except.error "disk fail" }, now := "00:00:00" }

/-- Witness for C7: one tick, then "q", then a queued tick and resize that
are never processed. -/
theorem quit_exits_loop_witness :
    mainProgram envs7 80 24
        ([LoopInput.tick] ++ LoopInput.ui (GoUIEvent.key "q") ::
          [LoopInput.tick, LoopInput.ui (GoUIEvent.resizeEvent 10 10)]) =
      mainProgram envs7 80 24 ([LoopInput.tick] ++ [LoopInput.ui (GoUIEvent.key "q")]) ∧
    (∃ t, (mainProgram envs7 80 24
        ([LoopInput.tick] ++ LoopInput.ui (GoUIEvent.key "q") ::
          [LoopInput.tick, LoopInput.ui (GoUIEvent.resizeEvent 10 10)])).2 =
      t ++ [TraceAct.tickerStop, TraceAct.uiClosed]) :=
  quit_exits_loop envs7 80 24 [LoopInput.tick]
    [LoopInput.tick, LoopInput.ui (GoUIEvent.resizeEvent 10 10)] "q" (by decide) (Or.inl rfl)

/-- C8 (amended): handling a Resize event changes only layout parameters
and re-renders: exit is not requested, every data field of the previously
rendered snapshot (gauge percents, gauge labels, info rows) is unchanged,
no collection round is started by the handler, and a render is performed;
a rendered snapshot always exists by the time any event is handled because
`run` performs an initial collection round before entering the loop. -/
theorem resize_preserves_data (app : AppState) (w h : ℤ) :
    (handleUIEvent app (GoUIEvent.resizeEvent w h)).1 = false ∧
    (handleUIEvent app (GoUIEvent.resizeEvent w h)).2.1.cpuGauge.percent =
      app.cpuGauge.percent ∧
    (handleUIEvent app (GoUIEvent.resizeEvent w h)).2.1.cpuGauge.label =
      app.cpuGauge.label ∧
    (handleUIEvent app (GoUIEvent.resizeEvent w h)).2.1.memoryGauge.percent =
      app.memoryGauge.percent ∧
    (handleUIEvent app (GoUIEvent.resizeEvent w h)).2.1.memoryGauge.label =
      app.memoryGauge.label ∧
    (handleUIEvent app (GoUIEvent.resizeEvent w h)).2.1.diskGauge.percent =
      app.diskGauge.percent ∧
    (handleUIEvent app (GoUIEvent.resizeEvent w h)).2.1.diskGauge.label =
      app.diskGauge.label ∧
    (handleUIEvent app (GoUIEvent.resizeEvent w h)).2.1.infoList.rows =
      app.infoList.rows ∧
    TraceAct.roundStart ∉ (handleUIEvent app (GoUIEvent.resizeEvent w h)).2.2 ∧
    TraceAct.rendered ∈ (handleUIEvent app (GoUIEvent.resizeEvent w h)).2.2 ∧
    (∀ (envs : ℕ → RoundEnv) (inputs : List LoopInput) (a : AppState),
      ((appRun envs inputs a).2).take 3 =
        [TraceAct.roundStart, TraceAct.statsReceived (roundSnapshot (envs 0).monitor),
          TraceAct.rendered]) := by
  refine ⟨rfl, rfl, rfl, rfl, rfl, rfl, rfl, rfl, ?_, ?_, ?_⟩
  · simp [handleUIEvent, handleResize]
  · simp [handleUIEvent, handleResize]
  · intro envs inputs a
    simp [appRun, updateDisplayStep]

/-- Counterexample for C8 as stated: in the initial state, before any
snapshot has been rendered (fresh widgets: empty rows, zero percents),
handling a Resize event still performs no re-collection — its trace is
exactly a layout recomputation and a render, and the widgets still hold no
data afterwards. -/
theorem resize_no_recollection_counterexample :
    (handleUIEvent (setupUIWithSize createWidgets 80 24)
        (GoUIEvent.resizeEvent 100 40)).2.2 =
      [TraceAct.layoutApplied 100 40, TraceAct.rendered] ∧
    TraceAct.roundStart ∉
      (handleUIEvent (setupUIWithSize createWidgets 80 24)
        (GoUIEvent.resizeEvent 100 40)).2.2 ∧
    (handleUIEvent (setupUIWithSize createWidgets 80 24)
        (GoUIEvent.resizeEvent 100 40)).2.1.infoList.rows = [] ∧
    (handleUIEvent (setupUIWithSize createWidgets 80 24)
        (GoUIEvent.resizeEvent 100 40)).2.1.cpuGauge.percent = 0 :=
  ⟨rfl, by decide, rfl, rfl⟩
